import Mathlib

/-!
Shallow embedding of the data-handling code in the sagemaker-workshop
repository (the hello-pipe-mode and batch image-classification notebooks),
together with theorems settling the specification claims about it.
-/

namespace SMWorkshop

/-- One serialized record written by convert_to_tfr: the feature vector stored
under the key features and the single integer label stored under the key
label. -/
structure TFExample (α : Type) where
  features : List α
  label : ℤ
  deriving DecidableEq, Repr

/-- convert_to_tfr from hello-pipe-mode.ipynb: for i in range(len(x)) it writes
one Example whose features are x[i] and whose label is int(y[i]), appending the
records to the output file in index order. -/
def convert_to_tfr {α : Type} (x : List (List α)) (y : List ℤ) :
    List (TFExample α) :=
  (List.range x.length).map (fun i => ⟨x.getD i [], y.getD i 0⟩)

/-- The section sizes numpy.array_split assigns to N samples cut into n
sections: with q = N / n and r = N % n, the first r sections have size q + 1
and the remaining n - r sections have size q. -/
def arraySplitSizes (N n : ℕ) : List ℕ :=
  List.replicate (N % n) (N / n + 1) ++ List.replicate (n - N % n) (N / n)

/-- Cut a list into consecutive chunks of the given sizes. -/
def chunksOfSizes {α : Type} : List ℕ → List α → List (List α)
  | [], _ => []
  | k :: ks, xs => xs.take k :: chunksOfSizes ks (xs.drop k)

/-- numpy.array_split(xs, n): xs cut into n contiguous sections whose sizes are
arraySplitSizes. -/
def array_split {α : Type} (xs : List α) (n : ℕ) : List (List α) :=
  chunksOfSizes (arraySplitSizes xs.length n) xs

/-- save_to_n_files from hello-pipe-mode.ipynb: split x and y with
numpy.array_split into n_files shards and, for i in range(n_files), write file
i with convert_to_tfr applied to the i-th shard of x and the i-th shard of
y. -/
def save_to_n_files {α : Type} (x : List (List α)) (y : List ℤ) (n : ℕ) :
    List (List (TFExample α)) :=
  (List.range n).map (fun i =>
    convert_to_tfr ((array_split x n).getD i []) ((array_split y n).getD i []))

/-- The class_name_list configured in 3_tf_sm_batch_ic.ipynb. -/
def class_name_list : List String := ["013.Bobolink", "017.Cardinal"]

/-- A batch prediction output file as seen by the scoring loop in
3_tf_sm_batch_ic.ipynb: its parent subfolder (entry.split('/')[1], the name of
the actual class) and the json predictions list of per-image probability
lists, or none when opening or parsing the file raises an exception. -/
structure PredFile where
  subfolder : String
  predictions : Option (List (List ℚ))
  deriving DecidableEq

/-- The scaled-by-1000 value of q rounded to the nearest integer with ties to
even, as the Python expression float(\x27%.3f\x27 % item) rounds the third
decimal place. For q with numerator n and positive denominator d, the scaled
value 1000 * q has floor f and fractional part r / d where r = 1000 * n - f * d;
the result is f when r / d is below one half, f + 1 when above, and whichever
of f, f + 1 is even at an exact tie. -/
def roundScaled (q : ℚ) : ℤ :=
  let s : ℤ := 1000 * q.num
  let d : ℤ := (q.den : ℤ)
  let f : ℤ := Int.fdiv s d
  let r : ℤ := s - f * d
  if 2 * r < d then f
  else if d < 2 * r then f + 1
  else if f % 2 = 0 then f else f + 1

/-- Rounding a probability to 3 decimal places, ties to even. -/
def round3 (q : ℚ) : ℚ := mkRat (roundScaled q) 1000

/-- Index of the first maximal element, as numpy.argmax computes it. -/
def argmaxGo : ℕ → ℕ → ℚ → List ℚ → ℕ
  | _, best, _, [] => best
  | i, best, bestv, v :: vs =>
      if bestv < v then argmaxGo (i + 1) i v vs
      else argmaxGo (i + 1) best bestv vs

/-- numpy.argmax on a list: none models the exception raised on an empty
sequence. -/
def argmax? : List ℚ → Option ℕ
  | [] => none
  | v :: vs => some (argmaxGo 1 0 v vs)

/-- The body of the scoring loop of 3_tf_sm_batch_ic.ipynb for one prediction
file: some b when the file is processed without an exception, with b true
exactly when the predicted label (class_name_list[argmax of the flattened,
3-decimal-rounded probability list]) equals the actual label named by the
parent subfolder; none models each way the body can raise (label not in
class_name_list, unreadable or malformed json, argmax of an empty list, class
index out of range). -/
def processEntry (classes : List String) (e : PredFile) : Option Bool :=
  match classes.indexOf? e.subfolder with
  | none => none
  | some _ =>
    match e.predictions with
    | none => none
    | some preds =>
      match argmax? (preds.flatten.map round3) with
      | none => none
      | some classIdx =>
        match classes[classIdx]? with
        | none => none
        | some predictedLabel => some (predictedLabel == e.subfolder)

/-- One foldl step of the scoring loop, accumulating (correct, total): a file
that raises is skipped by the except branch and counted in neither. -/
def scoreStep (classes : List String) (acc : ℕ × ℕ) (e : PredFile) : ℕ × ℕ :=
  match processEntry classes e with
  | some true => (acc.1 + 1, acc.2 + 1)
  | some false => (acc.1, acc.2 + 1)
  | none => acc

/-- The scoring loop of 3_tf_sm_batch_ic.ipynb over all prediction files,
returning (correct, total). -/
def scoreEntries (classes : List String) (es : List PredFile) : ℕ × ℕ :=
  es.foldl (scoreStep classes) (0, 0)

/-- The post-hoc accuracy cell: accuracy = correct / total, with none modelling
the ZeroDivisionError raised when total = 0. -/
def accuracyResult (classes : List String) (es : List PredFile) : Option ℚ :=
  if (scoreEntries classes es).2 = 0 then none
  else some (((scoreEntries classes es).1 : ℚ) / ((scoreEntries classes es).2 : ℚ))

/-- A well-formed prediction file for the Bobolink class. -/
def bobolinkFile : PredFile :=
  ⟨"013.Bobolink", some [[mkRat 9 10, mkRat 1 10]]⟩

/-- A prediction file under the 087.Mallard subfolder (a class absent from
class_name_list, so the scoring loop body raises on it). -/
def mallardFile : PredFile := ⟨"087.Mallard", none⟩

/-- The kinds of steps performed by the code cells of the workshop
notebooks. -/
inductive NotebookStep where
  | dataPrep
  | s3Upload
  | trainSubmit
  | deployModel
  | batchTransform
  | predictStep
  | evaluate
  | teardown
  | other
  deriving DecidableEq

open NotebookStep in
/-- The code cells of lab-pipe-mode-tensorflow/hello-pipe-mode.ipynb in
notebook order: imports, instance types, MODE configuration, sed rewrite,
pygmentize, dataset synthesis and two-stage split, sample counts, imports,
convert_to_tfr definition, local data folder reset, save_to_n_files
definition, the save_to_n_files calls, memory release, session setup, S3
clear plus upload_data, estimator construction, s3_input channels plus
estimator.fit, estimator.deploy, the prediction loop (its predictions
followed by its accuracy print), delete_endpoint, local and S3 data removal,
memory release. -/
def helloPipeModeSteps : List NotebookStep :=
  [other, other, other, other, other,
   dataPrep,
   other, other, other,
   dataPrep,
   other,
   dataPrep,
   other, other,
   s3Upload,
   other,
   trainSubmit,
   deployModel,
   predictStep, evaluate,
   teardown,
   teardown,
   other]

open NotebookStep in
/-- The code cells of the batch notebook in tensorflow-workshop in order:
configuration, class_name_list, session, framework image assembly,
create_model, data paths, removal of prior S3 batch predictions, removal of
prior local batch predictions, the batch transform job, results download,
sample output display, the scoring loop, the accuracy cell, the two
confusion-matrix definitions, and the confusion-matrix display. -/
def batchIcSteps : List NotebookStep :=
  [other, other, other, other, other, other,
   dataPrep, dataPrep,
   batchTransform,
   other, other,
   evaluate, evaluate,
   other, other,
   evaluate]

open NotebookStep in
/-- The code cells of the training-and-hosting notebook bundled with the
batch notebook, in order: session setup, bucket, parameters, classes file
read, train/val/test dataframe split, channel folder constant, cwd, copy
helper definition, local channel population, S3 clear plus sync, script
displays, requirements display, setup script, estimator configuration,
channel pointers, estimator.fit, job name print, inference replacement,
model deploy, commented predictor, imports, predict helper definition, a
sample prediction, confusion-matrix definitions, test helper definition, the
validation run (its predictions then its accuracy print), its confusion
matrix, the test run (predictions then accuracy), its confusion matrix,
predictions on unseen images, delete_endpoint, empty cell. -/
def lab2Steps : List NotebookStep :=
  [other, other, other,
   dataPrep, dataPrep,
   other, other, other,
   dataPrep,
   s3Upload,
   other, other, other, other, other, other,
   trainSubmit,
   other, other,
   deployModel,
   other, other, other,
   predictStep,
   other, other, other,
   predictStep, evaluate,
   evaluate,
   predictStep, evaluate,
   evaluate,
   predictStep,
   teardown,
   other]

/-- Every occurrence of step a in the cell sequence comes strictly before
every occurrence of step b. -/
def stepPrecedes (a b : NotebookStep) (steps : List NotebookStep) : Bool :=
  (steps.enum.filter (fun pr => pr.2 == a)).all fun p =>
    (steps.enum.filter (fun pr => pr.2 == b)).all fun q => decide (p.1 < q.1)

/-- The stage ordering stated by the spec: dataset preparation before the S3
upload, the upload before the training submission, training before deployment
and before batch scoring, evaluation and predictions after deployment or
batch scoring, and teardown after every other stage and every prediction. -/
def notebookOrdered (steps : List NotebookStep) : Bool :=
  stepPrecedes .dataPrep .s3Upload steps &&
  stepPrecedes .s3Upload .trainSubmit steps &&
  stepPrecedes .trainSubmit .deployModel steps &&
  stepPrecedes .trainSubmit .batchTransform steps &&
  stepPrecedes .deployModel .evaluate steps &&
  stepPrecedes .batchTransform .evaluate steps &&
  stepPrecedes .deployModel .predictStep steps &&
  stepPrecedes .batchTransform .predictStep steps &&
  stepPrecedes .dataPrep .teardown steps &&
  stepPrecedes .s3Upload .teardown steps &&
  stepPrecedes .trainSubmit .teardown steps &&
  stepPrecedes .deployModel .teardown steps &&
  stepPrecedes .batchTransform .teardown steps &&
  stepPrecedes .predictStep .teardown steps &&
  stepPrecedes .evaluate .teardown steps

/-- sklearn train_test_split sizing for a test_size fraction t of n samples:
the second (test) portion receives ceil(t * n) samples and the first (train)
portion the rest. -/
def train_test_split_counts (n : ℕ) (t : ℚ) : ℕ × ℕ :=
  (n - ⌈t * (n : ℚ)⌉₊, ⌈t * (n : ℚ)⌉₊)

/-- The two-stage split of hello-pipe-mode.ipynb, returning the sizes bound
to (X_train, X_test, X_val). The first call keeps the complement of
test_size + val_size as X_train; its second portion is split again, and the
tuple assignment X_test, X_val = train_test_split(...) binds the train
portion of that second call to X_test and its test portion to X_val. -/
def twoStageSplit (n : ℕ) (val_size test_size : ℚ) : ℕ × ℕ × ℕ :=
  let s1 := train_test_split_counts n (test_size + val_size)
  let s2 := train_test_split_counts s1.2 (test_size / (test_size + val_size))
  (s1.1, s2.1, s2.2)

/-- Modelled from the in-code comment of the split cell ("Give 70% to
train", "Of the remaining 30%, give 2/3 to validation and 1/3 to test"): the
comment intends X_val to receive the larger 2/3 portion of the remainder and
X_test its 1/3 portion. -/
def commentIntendedSplit (n : ℕ) (val_size test_size : ℚ) : ℕ × ℕ × ℕ :=
  let s1 := train_test_split_counts n (test_size + val_size)
  let s2 := train_test_split_counts s1.2 (test_size / (test_size + val_size))
  (s1.1, s2.2, s2.1)

/-- TF_ACCOUNT_NUM from 3_tf_sm_batch_ic.ipynb. -/
def tfAccountNum (v : String) : String :=
  if v = "1.12" then "520713654638" else "763104351884"

/-- TF_CONTAINER_NAME from 3_tf_sm_batch_ic.ipynb. -/
def tfContainerName (v : String) : String :=
  if v = "1.12" then "sagemaker-tensorflow-serving" else "tensorflow-inference"

/-- The image tag of the framework image: the framework version followed by
-gpu or -cpu according to USE_GPU_INSTANCE. -/
def imageTag (v : String) (gpu : Bool) : String :=
  v ++ (if gpu then "-gpu" else "-cpu")

/-- framework_image as assembled in 3_tf_sm_batch_ic.ipynb from
TF_ACCOUNT_NUM, the region, TF_CONTAINER_NAME, TF_FRAMEWORK_VERSION and
USE_GPU_INSTANCE. -/
def framework_image (v : String) (gpu : Bool) (region : String) : String :=
  tfAccountNum v ++ ".dkr.ecr." ++ region ++ ".amazonaws.com/" ++
    tfContainerName v ++ ":" ++ imageTag v gpu

/-- The last n characters of a string. -/
def lastChars (n : ℕ) (s : String) : List Char :=
  s.data.drop (s.data.length - n)

/-- INPUT_MODE from hello-pipe-mode.ipynb (switchable to File). -/
def INPUT_MODE : String := "Pipe"

/-- The configuration fields passed to the sagemaker.tensorflow.TensorFlow
estimator in hello-pipe-mode.ipynb. -/
structure TFEstimatorConfig where
  entry_point : String
  source_dir : String
  input_mode : String
  train_instance_type : String
  train_instance_count : ℕ
  parameter_server_enabled : Bool
  metric_definitions : List (String × String)
  hyperparameters : List (String × ℕ)
  framework_version : String
  py_version : String
  base_job_name : String
  deriving DecidableEq

/-- The estimator construction cell of hello-pipe-mode.ipynb as a function of
the INPUT_MODE setting and the MODE-dependent notebook constants. -/
def mkPipeModeEstimator (inputMode : String) (cnt : ℕ) (jobName : String)
    (hp : List (String × ℕ)) : TFEstimatorConfig :=
  { entry_point := "train.py"
    source_dir := "scripts"
    input_mode := inputMode
    train_instance_type := "ml.c5.xlarge"
    train_instance_count := cnt
    parameter_server_enabled := true
    metric_definitions :=
      [("validation:acc", "- val_acc: (.*?$)"),
       ("validation:loss", "- val_loss: (.*?) ")]
    hyperparameters := hp
    framework_version := "1.12"
    py_version := "py3"
    base_job_name := jobName }

/-- An object stored in S3, identified by its bucket and key. -/
structure S3Object where
  bucket : String
  key : String
  deriving DecidableEq

/-- The data_prefix constant of hello-pipe-mode.ipynb. -/
def dataPrefixKey : String := "data/DEMO-hello-pipe-mode"

/-- boto3 s3.Bucket(bkt).objects.filter(Prefix=p).delete(): every object of
bucket bkt whose key begins with p is deleted; all other objects survive
unchanged. -/
def objectsFilterDelete (objs : List S3Object) (bkt p : String) :
    List S3Object :=
  objs.filter (fun o => !(o.bucket == bkt && o.key.startsWith p))

/-- The pre-upload S3 clearing cell of hello-pipe-mode.ipynb:
s3_bucket.objects.filter(Prefix=data_prefix + \x27/\x27).delete() on the
session default bucket. -/
def clearOldDemoData (objs : List S3Object) (bkt : String) : List S3Object :=
  objectsFilterDelete objs bkt (dataPrefixKey ++ "/")

/-- The teardown S3 cleanup cell of hello-pipe-mode.ipynb: the same filtered
delete on the same bucket and key range. -/
def teardownDemoData (objs : List S3Object) (bkt : String) : List S3Object :=
  objectsFilterDelete objs bkt (dataPrefixKey ++ "/")

lemma arraySplitSizes_length (N n : ℕ) (hn : 0 < n) :
    (arraySplitSizes N n).length = n := by
  have hr : N % n ≤ n := Nat.le_of_lt (Nat.mod_lt _ hn)
  simp only [arraySplitSizes, List.length_append, List.length_replicate]
  exact Nat.add_sub_cancel' hr

lemma arraySplitSizes_sum (N n : ℕ) (hn : 0 < n) :
    (arraySplitSizes N n).sum = N := by
  have hkey : n * (N / n) + N % n = N := Nat.div_add_mod N n
  have hmul : N % n * (N / n) ≤ n * (N / n) :=
    Nat.mul_le_mul_right _ (Nat.le_of_lt (Nat.mod_lt _ hn))
  simp only [arraySplitSizes, List.sum_append, List.sum_replicate, smul_eq_mul]
  rw [Nat.mul_add, Nat.mul_one, Nat.sub_mul]
  generalize N % n * (N / n) = A at hmul ⊢
  generalize n * (N / n) = B at hkey hmul ⊢
  generalize N % n = r at hkey ⊢
  omega

lemma arraySplitSizes_mem (N n k : ℕ) (hk : k ∈ arraySplitSizes N n) :
    k = N / n ∨ k = N / n + 1 := by
  rcases List.mem_append.1 hk with h | h
  · exact Or.inr (List.eq_of_mem_replicate h)
  · exact Or.inl (List.eq_of_mem_replicate h)

lemma chunksOfSizes_length {α : Type} (ks : List ℕ) :
    ∀ xs : List α, (chunksOfSizes ks xs).length = ks.length := by
  induction ks with
  | nil => intro xs; rfl
  | cons k ks ih => intro xs; simp [chunksOfSizes, ih]

lemma chunksOfSizes_flatten {α : Type} (ks : List ℕ) :
    ∀ xs : List α, xs.length ≤ ks.sum → (chunksOfSizes ks xs).flatten = xs := by
  induction ks with
  | nil =>
      intro xs h
      simp only [List.sum_nil, Nat.le_zero] at h
      simp [chunksOfSizes, List.length_eq_zero.1 h]
  | cons k ks ih =>
      intro xs h
      simp only [List.sum_cons] at h
      have h2 : (xs.drop k).length ≤ ks.sum := by
        simp only [List.length_drop]
        omega
      simp only [chunksOfSizes, List.flatten_cons, ih _ h2, List.take_append_drop]

lemma chunksOfSizes_map_length {α : Type} (ks : List ℕ) :
    ∀ xs : List α, ks.sum = xs.length →
      (chunksOfSizes ks xs).map List.length = ks := by
  induction ks with
  | nil => intro xs h; rfl
  | cons k ks ih =>
      intro xs h
      simp only [List.sum_cons] at h
      have hk : k ≤ xs.length := by omega
      have h2 : ks.sum = (xs.drop k).length := by
        simp only [List.length_drop]
        omega
      simp [chunksOfSizes, List.length_take, Nat.min_eq_left hk, ih _ h2]

lemma ceil_div_of_mod_pos (N n : ℕ) (hn : 0 < n) (hr : 0 < N % n) :
    (N + n - 1) / n = N / n + 1 := by
  have h : n * (N / n) + N % n = N := Nat.div_add_mod N n
  have hrn : N % n < n := Nat.mod_lt _ hn
  have lo : (N / n + 1) * n ≤ N + n - 1 := by
    have e1 : (N / n + 1) * n = n * (N / n) + n := by ring
    rw [e1]
    generalize n * (N / n) = A at h ⊢
    generalize N % n = r at h hr
    omega
  have hi : N + n - 1 < (N / n + 1 + 1) * n := by
    have e2 : (N / n + 1 + 1) * n = n * (N / n) + n + n := by ring
    rw [e2]
    generalize n * (N / n) = A at h ⊢
    generalize N % n = r at h hrn
    omega
  exact Nat.div_eq_of_lt_le lo hi

lemma array_split_shard_size {α : Type} (xs : List α) (n : ℕ) (hn : 0 < n)
    (s : List α) (hs : s ∈ array_split xs n) :
    s.length = xs.length / n ∨ s.length = (xs.length + n - 1) / n := by
  have hsum : (arraySplitSizes xs.length n).sum = xs.length :=
    arraySplitSizes_sum _ _ hn
  have hmap : (array_split xs n).map List.length = arraySplitSizes xs.length n :=
    chunksOfSizes_map_length _ _ hsum
  have hmem : s.length ∈ arraySplitSizes xs.length n := by
    rw [← hmap]
    exact List.mem_map_of_mem _ hs
  rcases arraySplitSizes_mem _ _ _ hmem with h | h
  · exact Or.inl h
  · right
    have hr : 0 < xs.length % n := by
      by_contra hr0
      push_neg at hr0
      have hz : xs.length % n = 0 := Nat.le_zero.1 hr0
      have hq : s.length = xs.length / n := by
        rw [arraySplitSizes, hz] at hmem
        simp only [List.replicate_zero, List.nil_append, Nat.sub_zero] at hmem
        exact List.eq_of_mem_replicate hmem
      rw [h] at hq
      exact absurd hq (Nat.succ_ne_self _)
    rw [ceil_div_of_mod_pos _ _ hn hr, h]

lemma scoreEntries_go (classes : List String) (es : List PredFile) :
    ∀ c t : ℕ,
      es.foldl (scoreStep classes) (c, t) =
        (c + es.countP (fun e => processEntry classes e == some true),
         t + es.countP (fun e => (processEntry classes e).isSome)) := by
  induction es with
  | nil => intro c t; simp
  | cons e es ih =>
      intro c t
      rcases hpe : processEntry classes e with _ | b
      · simp [scoreStep, hpe, List.countP_cons, ih]
      · cases b <;> simp [scoreStep, hpe, List.countP_cons, ih] <;> omega

lemma scoreEntries_eq_countP (classes : List String) (es : List PredFile) :
    scoreEntries classes es =
      (es.countP (fun e => processEntry classes e == some true),
       es.countP (fun e => (processEntry classes e).isSome)) := by
  rw [scoreEntries, scoreEntries_go]
  simp

/-- Claim C1: for equal-length x (samples) and y (labels) with N samples and
1 <= n_files <= N, save_to_n_files writes exactly n_files files, the
numpy.array_split shards are contiguous and their in-order concatenation is
the original array, x and y are cut at identical index boundaries (the shard
sizes agree position by position, so every sample stays paired with its own
label), and every shard has size floor(N / n_files) or ceil(N / n_files). -/
theorem save_to_n_files_even_contiguous_split {α : Type}
    (x : List (List α)) (y : List ℤ) (n : ℕ)
    (hxy : x.length = y.length) (h1 : 1 ≤ n) (h2 : n ≤ x.length) :
    (save_to_n_files x y n).length = n ∧
    (array_split x n).length = n ∧
    (array_split y n).length = n ∧
    (array_split x n).flatten = x ∧
    (array_split y n).flatten = y ∧
    (array_split x n).map List.length = (array_split y n).map List.length ∧
    ∀ s ∈ array_split x n,
      s.length = x.length / n ∨ s.length = (x.length + n - 1) / n := by
  have hn : 0 < n := h1
  have hsx : (arraySplitSizes x.length n).sum = x.length :=
    arraySplitSizes_sum _ _ hn
  have hsy : (arraySplitSizes y.length n).sum = y.length :=
    arraySplitSizes_sum _ _ hn
  refine ⟨?_, ?_, ?_, ?_, ?_, ?_, ?_⟩
  · simp [save_to_n_files]
  · rw [array_split, chunksOfSizes_length, arraySplitSizes_length _ _ hn]
  · rw [array_split, chunksOfSizes_length, arraySplitSizes_length _ _ hn]
  · exact chunksOfSizes_flatten _ _ (le_of_eq hsx.symm)
  · exact chunksOfSizes_flatten _ _ (le_of_eq hsy.symm)
  · rw [array_split, array_split, chunksOfSizes_map_length _ _ hsx,
        chunksOfSizes_map_length _ _ hsy, hxy]
  · exact fun s hs => array_split_shard_size x n hn s hs

/-- Concrete instantiation of the Claim C1 theorem. -/
theorem save_to_n_files_even_contiguous_split_witness :
    (save_to_n_files ([[0], [1], [2]] : List (List ℕ)) [5, 6, 7] 2).length = 2 ∧
    (array_split ([[0], [1], [2]] : List (List ℕ)) 2).flatten = [[0], [1], [2]] := by
  have h := save_to_n_files_even_contiguous_split
    ([[0], [1], [2]] : List (List ℕ)) [5, 6, 7] 2 rfl (by decide) (by decide)
  exact ⟨h.1, h.2.2.2.1⟩

/-- Claim C2: for equal-length x and y, convert_to_tfr writes exactly len(x)
records, in index order, and record i carries the feature vector x[i] and the
integer label y[i]. -/
theorem convert_to_tfr_records {α : Type} (x : List (List α)) (y : List ℤ)
    (hxy : x.length = y.length) :
    (convert_to_tfr x y).length = x.length ∧
    ∀ (i : ℕ) (xv : List α) (yv : ℤ), x[i]? = some xv → y[i]? = some yv →
      (convert_to_tfr x y)[i]? = some (⟨xv, yv⟩ : TFExample α) := by
  constructor
  · simp [convert_to_tfr]
  · intro i xv yv hx hy
    have hi : i < x.length := by
      by_contra hlt
      push_neg at hlt
      rw [List.getElem?_eq_none hlt] at hx
      cases hx
    rw [convert_to_tfr, List.getElem?_map, List.getElem?_range hi]
    simp only [Option.map_some']
    have hxv : x.getD i [] = xv := by
      rw [List.getD_eq_getElem?_getD, hx]
      rfl
    have hyv : y.getD i 0 = yv := by
      rw [List.getD_eq_getElem?_getD, hy]
      rfl
    rw [hxv, hyv]

/-- Concrete instantiation of the Claim C2 theorem. -/
theorem convert_to_tfr_records_witness :
    (convert_to_tfr ([[1, 2], [3, 4]] : List (List ℤ)) [7, 8]).length = 2 ∧
    (convert_to_tfr ([[1, 2], [3, 4]] : List (List ℤ)) [7, 8])[0]? =
      some ⟨[1, 2], 7⟩ := by
  have h := convert_to_tfr_records ([[1, 2], [3, 4]] : List (List ℤ)) [7, 8] rfl
  exact ⟨h.1, h.2 0 [1, 2] 7 rfl rfl⟩

/-- Claim C3: the post-hoc accuracy equals correct / total, where total counts
the prediction files processed without raising and correct counts those whose
predicted class (argmax over the flattened, 3-decimal-rounded probability
list, mapped through class_name_list) equals the actual class named by the
parent subfolder; consequently correct <= total and, whenever the accuracy is
computed at all (total nonzero), it lies in [0, 1]. -/
theorem batch_accuracy_correct_over_total (classes : List String)
    (es : List PredFile) :
    (scoreEntries classes es).1 =
      es.countP (fun e => processEntry classes e == some true) ∧
    (scoreEntries classes es).2 =
      es.countP (fun e => (processEntry classes e).isSome) ∧
    (scoreEntries classes es).1 ≤ (scoreEntries classes es).2 ∧
    ((scoreEntries classes es).2 ≠ 0 →
      accuracyResult classes es =
        some (((scoreEntries classes es).1 : ℚ) /
          ((scoreEntries classes es).2 : ℚ)) ∧
      0 ≤ (((scoreEntries classes es).1 : ℚ) /
          ((scoreEntries classes es).2 : ℚ)) ∧
      (((scoreEntries classes es).1 : ℚ) /
          ((scoreEntries classes es).2 : ℚ)) ≤ 1) := by
  have hsc := scoreEntries_eq_countP classes es
  have h1 : (scoreEntries classes es).1 =
      es.countP (fun e => processEntry classes e == some true) := by
    rw [hsc]
  have h2 : (scoreEntries classes es).2 =
      es.countP (fun e => (processEntry classes e).isSome) := by
    rw [hsc]
  have hle : (scoreEntries classes es).1 ≤ (scoreEntries classes es).2 := by
    rw [h1, h2]
    apply List.countP_mono_left
    intro e he hpe
    have hpt : processEntry classes e = some true := by
      simpa using hpe
    simp [hpt]
  refine ⟨h1, h2, hle, fun ht => ?_⟩
  have htpos : 0 < ((scoreEntries classes es).2 : ℚ) := by
    exact_mod_cast Nat.pos_of_ne_zero ht
  refine ⟨?_, ?_, ?_⟩
  · rw [accuracyResult, if_neg ht]
  · positivity
  · rw [div_le_one htpos]
    exact_mod_cast hle

/-- Concrete instantiation of the Claim C3 theorem. -/
theorem batch_accuracy_correct_over_total_witness :
    scoreEntries class_name_list [bobolinkFile] = (1, 1) ∧
    accuracyResult class_name_list [bobolinkFile] = some 1 := by
  have hs : scoreEntries class_name_list [bobolinkFile] = (1, 1) := by decide
  have ht : (scoreEntries class_name_list [bobolinkFile]).2 ≠ 0 := by
    rw [hs]
    decide
  have h :=
    (batch_accuracy_correct_over_total class_name_list [bobolinkFile]).2.2.2 ht
  refine ⟨hs, ?_⟩
  rw [h.1, hs]
  norm_num

/-- Claim C4 counterexample: the scoring loop of 3_tf_sm_batch_ic.ipynb does
catch an exception and continue. Processing the 087.Mallard file raises
(processEntry is none), yet scoring a folder beginning with that file
completes, skips it, and still processes and counts the following file, so
the error does not propagate to the caller. -/
theorem scoring_loop_swallows_exception :
    processEntry class_name_list mallardFile = none ∧
    scoreEntries class_name_list [mallardFile, bobolinkFile] = (1, 1) ∧
    accuracyResult class_name_list [mallardFile, bobolinkFile] = some 1 := by
  have hs : scoreEntries class_name_list [mallardFile, bobolinkFile] = (1, 1) := by
    decide
  refine ⟨by decide, hs, ?_⟩
  simp [accuracyResult, hs]

/-- Claim C4 (amended): the batch prediction scoring loop catches any per-file
exception and continues with the next file; the failing file is counted in
neither correct nor total, and removing it from the folder leaves the scoring
result unchanged. -/
theorem scoring_loop_skips_failed_entries (classes : List String)
    (es1 es2 : List PredFile) (e : PredFile)
    (he : processEntry classes e = none) :
    scoreEntries classes (es1 ++ e :: es2) =
      scoreEntries classes (es1 ++ es2) := by
  simp [scoreEntries_eq_countP, List.countP_append, List.countP_cons, he]

/-- Concrete instantiation of the amended Claim C4 theorem. -/
theorem scoring_loop_skips_failed_entries_witness :
    scoreEntries class_name_list ([] ++ mallardFile :: [bobolinkFile]) =
      scoreEntries class_name_list ([] ++ [bobolinkFile]) :=
  scoring_loop_skips_failed_entries class_name_list [] [bobolinkFile]
    mallardFile (by decide)

/-- Claim C9: the accuracy cell divides correct by total with no guard against
total = 0: it raises ZeroDivisionError (accuracyResult is none) precisely when
no prediction file is processed successfully — in particular when the
batch_predictions folder is empty or every file takes the except branch — and
is safe exactly under the precondition that at least one file is processed. -/
theorem accuracy_unguarded_zero_division (classes : List String)
    (es : List PredFile) :
    accuracyResult classes es = none ↔
      ∀ e ∈ es, processEntry classes e = none := by
  have hsc := scoreEntries_eq_countP classes es
  constructor
  · intro hnone e he
    have ht : (scoreEntries classes es).2 = 0 := by
      by_contra ht
      rw [accuracyResult, if_neg ht] at hnone
      cases hnone
    rw [hsc] at ht
    have hcz := List.countP_eq_zero.1 ht e he
    exact Option.not_isSome_iff_eq_none.1 hcz
  · intro hall
    have ht : (scoreEntries classes es).2 = 0 := by
      rw [hsc]
      exact List.countP_eq_zero.2 (fun e he => by simp [hall e he])
    rw [accuracyResult, if_pos ht]

/-- Concrete instantiation of the Claim C9 theorem: a folder whose only file
fails to process makes the accuracy computation raise. -/
theorem accuracy_unguarded_zero_division_witness :
    accuracyResult class_name_list [mallardFile] = none :=
  (accuracy_unguarded_zero_division class_name_list [mallardFile]).2 (by decide)

lemma str_data_append (s t : String) : (s ++ t).data = s.data ++ t.data := by
  cases s
  cases t
  rfl

lemma lastChars_append (s c : String) (h : c.data.length = 4) :
    lastChars 4 (s ++ c) = c.data := by
  unfold lastChars
  rw [str_data_append, List.length_append, h, Nat.add_sub_cancel]
  exact List.drop_left s.data c.data

/-- Claim C5: in each of the three notebooks, the stated stages appear in
order: dataset preparation precedes the S3 upload, the upload precedes the
training-job submission, training precedes deployment or batch scoring of
the model, evaluation of results follows that, and teardown of billable
resources comes last, after every prediction. -/
theorem notebooks_stage_ordering :
    notebookOrdered helloPipeModeSteps = true ∧
    notebookOrdered batchIcSteps = true ∧
    notebookOrdered lab2Steps = true := by
  decide

/-- Claim C6: with val_size = 0.20 and test_size = 0.10, the code's two-stage
split gives X_train 70% of the samples, binds the larger 2/3 portion of the
remaining 30% (that is 20%, the val_size fraction) to the name X_test and
the 1/3 portion (10%, the test_size fraction) to the name X_val — the
reverse of what the variable names and the in-code comment state — at both
notebook dataset sizes. -/
theorem two_stage_split_reversed_bindings :
    twoStageSplit 10000 (2 / 10) (1 / 10) = (7000, 2000, 1000) ∧
    commentIntendedSplit 10000 (2 / 10) (1 / 10) = (7000, 1000, 2000) ∧
    twoStageSplit 90000 (2 / 10) (1 / 10) = (63000, 18000, 9000) := by
  norm_num [twoStageSplit, commentIntendedSplit, train_test_split_counts]

/-- Claim C7: framework_image is a deterministic function of the framework
version, the GPU flag and the region; it is built from ECR account
520713654638 and repository sagemaker-tensorflow-serving exactly when the
version is 1.12 and from account 763104351884 and repository
tensorflow-inference otherwise; its tag begins with the version and ends in
-gpu exactly when USE_GPU_INSTANCE is set, and in -cpu otherwise. -/
theorem framework_image_deterministic (v region : String) (gpu : Bool) :
    framework_image v gpu region =
      tfAccountNum v ++ ".dkr.ecr." ++ region ++ ".amazonaws.com/" ++
        tfContainerName v ++ ":" ++ imageTag v gpu ∧
    (tfAccountNum v = "520713654638" ↔ v = "1.12") ∧
    (tfContainerName v = "sagemaker-tensorflow-serving" ↔ v = "1.12") ∧
    (tfAccountNum v = "763104351884" ↔ v ≠ "1.12") ∧
    (tfContainerName v = "tensorflow-inference" ↔ v ≠ "1.12") ∧
    (lastChars 4 (imageTag v gpu) = "-gpu".data ↔ gpu = true) ∧
    (lastChars 4 (imageTag v gpu) = "-cpu".data ↔ gpu = false) ∧
    (imageTag v gpu).data.take v.data.length = v.data := by
  refine ⟨rfl, ?_, ?_, ?_, ?_, ?_, ?_, ?_⟩
  · unfold tfAccountNum
    by_cases h : v = "1.12" <;> simp [h]
  · unfold tfContainerName
    by_cases h : v = "1.12" <;> simp [h]
  · unfold tfAccountNum
    by_cases h : v = "1.12" <;> simp [h]
  · unfold tfContainerName
    by_cases h : v = "1.12" <;> simp [h]
  · cases gpu
    · simp only [imageTag, Bool.false_eq_true, if_false, iff_false]
      rw [lastChars_append _ _ (by decide)]
      decide
    · simp only [imageTag, if_true, iff_true]
      exact lastChars_append _ _ (by decide)
  · cases gpu
    · simp only [imageTag, Bool.false_eq_true, if_false, iff_true]
      exact lastChars_append _ _ (by decide)
    · simp only [imageTag, if_true, Bool.true_eq_false, iff_false]
      rw [lastChars_append _ _ (by decide)]
      decide
  · rw [imageTag, str_data_append]
    exact List.take_left v.data _

/-- Claim C8: the only Pipe-dependent datum in the training configuration the
notebook assembles is the estimator input_mode field, which is set to the
INPUT_MODE constant; with INPUT_MODE = Pipe every other estimator field is
identical to what a File-mode run would submit, the streaming itself being
delegated to the external platform. -/
theorem input_mode_only_effect (m : String) (cnt : ℕ) (jobName : String)
    (hp : List (String × ℕ)) :
    (mkPipeModeEstimator m cnt jobName hp).input_mode = m ∧
    mkPipeModeEstimator m cnt jobName hp =
      { mkPipeModeEstimator INPUT_MODE cnt jobName hp with input_mode := m } ∧
    INPUT_MODE = "Pipe" :=
  ⟨rfl, rfl, rfl⟩

/-- Claim C10: both the pre-upload clearing and the final teardown S3 cleanup
remove exactly the objects of the session default bucket whose key begins
with data/DEMO-hello-pipe-mode/ — an object survives the operation if and
only if it was present and is not such an object, so every object of another
bucket, and every object of the default bucket without that key range, is
left unchanged. -/
theorem s3_cleanup_frame (objs : List S3Object) (bkt : String)
    (o : S3Object) :
    (o ∈ clearOldDemoData objs bkt ↔
      o ∈ objs ∧
        ¬(o.bucket = bkt ∧
          o.key.startsWith ("data/DEMO-hello-pipe-mode" ++ "/") = true)) ∧
    teardownDemoData objs bkt = clearOldDemoData objs bkt := by
  constructor
  · rw [clearOldDemoData, objectsFilterDelete, List.mem_filter]
    have hbool : ∀ x y : Bool, (!(x && y)) = true ↔ ¬(x = true ∧ y = true) := by
      decide
    rw [hbool]
    simp only [beq_iff_eq, dataPrefixKey]
  · rfl

end SMWorkshop
